import Mathlib

/-!
Verification of the TestVerse backend's test-execution engine.

This file gives a shallow embedding, in Lean, of the parts of the code that
the specification's testable properties talk about:

* `app/services/score_calculator.py` — `_extract_value`, `calculate_score`,
  `generate_summary`, `score_and_summarize`;
* `app/routers/test_router.py` — `_safe_url` (SSRF origin guard), `_step`
  (persist + broadcast helper), and the stage-2 exception coercion in
  `_run_all`;
* `app/services/playwright_runner.py` — the credential-free login-outcome
  judgment of `_async_run_login_test` and the button-scanning phase of
  `_test_post_login_ui`;
* `app/services/crawler.py` — `crawl_website`.

Python dicts holding heterogeneous JSON-like data are modelled by the
inductive type `Val` together with assoc-list dictionaries; Python operations
that can raise (`len` of a non-sized value, arithmetic on non-numbers)
return `Except`.  Network and parsing effects (HTTP fetches, DNS resolution,
`urllib.parse` helpers, BeautifulSoup) are passed in as function parameters,
so theorems quantify over every possible behaviour of those collaborators.
-/

/-- Dynamic (JSON-like) Python value, as stored in a test-run record. -/
inductive Val where
  | none
  | bool (b : Bool)
  | num (q : ℚ)
  | str (s : String)
  | list (xs : List Val)
  | dict (entries : List (String × Val))

/-- Run records and check-result dicts are assoc lists without duplicate keys
(the Python objects are `dict`s); lookups take the first binding. -/
abbrev Run := List (String × Val)

/-- Python `d.get(k)`: `some v` when the key is bound, `none` otherwise. -/
def pyGet : List (String × Val) → String → Option Val
  | [], _ => Option.none
  | (k', v') :: rest, k => if k' = k then some v' else pyGet rest k

/-- Python `d[k] = v`: overwrite the binding if present, else append it. -/
def pySet : List (String × Val) → String → Val → List (String × Val)
  | [], k, v => [(k, v)]
  | (k', v') :: rest, k, v =>
      if k' = k then (k, v) :: rest else (k', v') :: pySet rest k v

/-- Python truthiness of a `Val` (`bool(v)`). -/
def truthy : Val → Bool
  | Val.none => false
  | Val.bool b => b
  | Val.num q => decide (q ≠ 0)
  | Val.str s => decide (s ≠ "")
  | Val.list xs => !xs.isEmpty
  | Val.dict es => !es.isEmpty

/-- Python `len(v)`: defined for strings, lists and dicts, a `TypeError`
(`Option.none`) otherwise. -/
def pyLen : Val → Option ℕ
  | Val.str s => some s.length
  | Val.list xs => some xs.length
  | Val.dict es => some es.length
  | _ => Option.none

/-- Numeric reading of a value, as Python arithmetic accepts it
(`int`/`float` directly, `bool` as 0/1; everything else is a `TypeError`). -/
def valAsNum : Val → Option ℚ
  | Val.num q => some q
  | Val.bool b => some (if b then 1 else 0)
  | _ => Option.none

/-- Parse a decimal digit. -/
def digitVal (c : Char) : Option ℕ :=
  if c.isDigit then some (c.toNat - '0'.toNat) else Option.none

/-- Parse a non-empty digit string into a natural number. -/
def digitsToNat : List Char → Option ℕ
  | [] => Option.none
  | cs => cs.foldl (fun acc c => do pure ((← acc) * 10 + (← digitVal c))) (some 0)

/-- Decimal forms accepted by Python's `float(...)` constructor on strings
(`"12"`, `"-3.5"`, `"+.25"`, `"7."`, …); exotic forms (exponents, `inf`,
`nan`, surrounding whitespace) are not modelled and parse to `none`. -/
def parseDecimal (s : String) : Option ℚ := do
  let (sign, cs) : ℚ × List Char :=
    match s.data with
    | '-' :: t => (-1, t)
    | '+' :: t => (1, t)
    | t => (1, t)
  match cs.splitOn '.' with
  | [ip] => pure (sign * ((← digitsToNat ip : ℕ) : ℚ))
  | [[], []] => Option.none
  | [ip, fp] =>
      let ipart : ℕ := (← if ip.isEmpty then some 0 else digitsToNat ip)
      let fpart : ℕ := (← if fp.isEmpty then some 0 else digitsToNat fp)
      pure (sign * ((ipart : ℚ) + (fpart : ℚ) / ((10 : ℚ) ^ fp.length)))
  | _ => Option.none

/-- Python `float(v)` as used in `_extract_value`'s `try`-block: numbers pass
through, booleans map to 0/1, strings are parsed, anything else (and a
malformed string) raises `TypeError`/`ValueError`, which the caller catches —
modelled by `none`. -/
def pyFloat : Val → Option ℚ
  | Val.num q => some q
  | Val.bool b => some (if b then 1 else 0)
  | Val.str s => parseDecimal s
  | _ => Option.none

/-- Python's built-in `round` on a rational: round-half-to-even. -/
def pyRound (q : ℚ) : ℤ :=
  if q - (⌊q⌋ : ℚ) < 1 / 2 then ⌊q⌋
  else if 1 / 2 < q - (⌊q⌋ : ℚ) then ⌊q⌋ + 1
  else if ⌊q⌋ % 2 = 0 then ⌊q⌋ else ⌊q⌋ + 1

/-- Per-check scoring configuration (one entry of the `WEIGHTS` table in
`app/services/score_calculator.py`). -/
structure WeightCfg where
  key : String
  weight : ℚ
  bool : Bool := false

/-- The `WEIGHTS` table of `score_calculator.py` (weights sum to 100). -/
def WEIGHTS : List (String × WeightCfg) :=
  [("speed",            ⟨"score", 15, false⟩),
   ("ssl",              ⟨"valid", 10, true⟩),
   ("security_headers", ⟨"score", 12, false⟩),
   ("core_web_vitals",  ⟨"score", 12, false⟩),
   ("seo",              ⟨"score", 10, false⟩),
   ("accessibility",    ⟨"score", 10, false⟩),
   ("html_validation",  ⟨"score",  8, false⟩),
   ("content_quality",  ⟨"score",  8, false⟩),
   ("broken_links",     ⟨"_derived", 8, false⟩),
   ("cookies_gdpr",     ⟨"score",  7, false⟩),
   ("pwa",              ⟨"score",  5, false⟩),
   ("functionality",    ⟨"score",  5, false⟩)]

/-- Divisor used by the derived broken-links rule:
`total = data.get("total_checked", 1) or 1`. -/
def derivedDivisor (es : List (String × Val)) : Val :=
  let t := (pyGet es "total_checked").getD (Val.num 1)
  if truthy t then t else Val.num 1

/-- Boolean branch of `_extract_value` (the SSL check): `raw is None` gives
`None`, otherwise truthiness maps to 100/0. -/
def boolField (raw : Option Val) : Option ℚ :=
  match raw with
  | Option.none => Option.none
  | some Val.none => Option.none
  | some v => some (if truthy v then 100 else 0)

/-- Numeric branch of `_extract_value`: `val is None` gives `None`,
otherwise `float(val)` under `try/except`. -/
def numField (val : Option Val) : Option ℚ :=
  match val with
  | Option.none => Option.none
  | some Val.none => Option.none
  | some v => pyFloat v

/-- Derived branch of `_extract_value` (broken links):
`max(0.0, 100.0 - (len(broken) / total) * 200)` with
`broken = data.get("broken", [])` and `total = data.get("total_checked", 1)
or 1`.  The two possible `TypeError`s surface as `.error`. -/
def derivedField (es : List (String × Val)) : Except String (Option ℚ) :=
  match pyLen ((pyGet es "broken").getD (Val.list [])) with
  | Option.none => .error "TypeError: object has no len()"
  | some n =>
    match valAsNum (derivedDivisor es) with
    | Option.none => .error "TypeError: unsupported operand type(s) for /"
    | some total => .ok (some (max 0 (100 - ((n : ℚ) / total) * 200)))

/-- Embedding of `_extract_value(data, cfg)` from `score_calculator.py`.
`data` is `result.get(check_name)` (so `Option.none` means the key was
absent, which Python sees as the falsy `None`).  The only paths that can
raise are inside the `_derived` branch; they surface as `.error`. -/
def extract_value (data : Option Val) (cfg : WeightCfg) :
    Except String (Option ℚ) :=
  match data with
  | Option.none => .ok Option.none
  | some v =>
    -- `if not data or not isinstance(data, dict): return None`
    if truthy v = false then .ok Option.none
    else
      match v with
      | Val.dict es =>
        if cfg.bool then .ok (boolField (pyGet es cfg.key))
        else if cfg.key = "_derived" then derivedField es
        else .ok (numField (pyGet es cfg.key))
      | _ => .ok Option.none

/-- Loop body of `calculate_score`: skip a check with no value, otherwise
clamp it to [0,100] and accumulate `(total_weight, weighted_sum)`. -/
def scoreStep (result : Run) (acc : ℚ × ℚ) (nc : String × WeightCfg) :
    Except String (ℚ × ℚ) := do
  let data := pyGet result nc.1
  match (← extract_value data nc.2) with
  | Option.none => pure acc
  | some v =>
    let v := max 0 (min 100 v)
    pure (acc.1 + nc.2.weight, acc.2 + v * nc.2.weight)

/-- Embedding of `calculate_score(result)`: weighted mean over the checks
that produced a value, clamped per check to [0,100]; `0` when no check
produced a value. -/
def calculate_score (result : Run) : Except String ℤ := do
  let acc ← WEIGHTS.foldlM (scoreStep result) ((0 : ℚ), (0 : ℚ))
  if acc.1 = 0 then pure 0 else pure (pyRound (acc.2 / acc.1))

/-- Python `obj.get(k)` where `obj` is expected to be a dict: raises
`AttributeError` when `obj` is not a dict (e.g. a check value of another
shape); `generate_summary` does not catch that. -/
def pyAttrGet (v : Val) (k : String) : Except String (Option Val) :=
  match v with
  | Val.dict es => .ok (pyGet es k)
  | _ => .error "AttributeError: object has no attribute get"

/-- Python `v < q` with an `int`/`float` literal on the right: numbers and
booleans compare, anything else raises `TypeError`. -/
def pyLtNum (v : Val) (q : ℚ) : Except String Bool :=
  match valAsNum v with
  | some x => .ok (decide (x < q))
  | Option.none => .error "TypeError: unorderable types"

/-- Python `v > q` with a numeric literal on the right. -/
def pyGtNum (v : Val) (q : ℚ) : Except String Bool :=
  match valAsNum v with
  | some x => .ok (decide (q < x))
  | Option.none => .error "TypeError: unorderable types"

/-- Python `round(v)` on a stored value. -/
def pyRoundVal (v : Val) : Except String ℤ :=
  match valAsNum v with
  | some x => .ok (pyRound x)
  | Option.none => .error "TypeError: type cannot be rounded"

/-- Display of a stored value inside an f-string.  The values interpolated by
`generate_summary` are integers in practice, which this renders exactly; for
a non-integral rational we use a `num/den` form (Python would print a decimal
expansion — only determinism of the rendering matters to the theorems). -/
def pyStr : Val → String
  | Val.none => "None"
  | Val.bool b => if b then "True" else "False"
  | Val.num q => if q.den = 1 then toString q.num
                 else toString q.num ++ "/" ++ toString q.den
  | Val.str s => s
  | Val.list _ => "[...]"
  | Val.dict _ => "{...}"

/-- Embedding of `generate_summary(score, result)` from
`score_calculator.py`: a qualitative label from the score plus up to five
templated issue fragments.  (The source also assigns
`url = result.get("url", "the site")` but never uses it.) -/
def generate_summary (score : ℤ) (result : Run) : Except String String := do
  let label :=
    if score ≥ 80 then "excellent"
    else if score ≥ 60 then "good"
    else if score ≥ 40 then "fair"
    else "poor"
  -- SSL issues
  let ssl := (pyGet result "ssl").getD (Val.dict [])
  let sslValid := (← pyAttrGet ssl "valid").getD Val.none
  let issues₁ : List String ←
    match sslValid with
    | Val.bool false =>
      -- `ssl.get("valid") is False`
      pure ["invalid SSL certificate"]
    | _ => do
      let expv := (← pyAttrGet ssl "expires_in_days").getD Val.none
      if truthy expv then do
        if (← pyLtNum expv 14) then
          pure ["SSL expiring in " ++ pyStr expv ++ " days"]
        else pure []
      else pure []
  -- speed issues
  let speed := (pyGet result "speed").getD (Val.dict [])
  let ltv := (← pyAttrGet speed "load_time_ms").getD Val.none
  let issues₂ : List String ←
    if truthy ltv then do
      if (← pyGtNum ltv 3000) then
        pure ["slow load time (" ++ toString (← pyRoundVal ltv) ++ "ms)"]
      else pure []
    else pure []
  -- broken-link issues
  let broken := (pyGet result "broken_links").getD (Val.dict [])
  let bv := (← pyAttrGet broken "broken").getD Val.none
  let issues₃ : List String ←
    if truthy bv then do
      match pyLen bv with
      | Option.none => .error "TypeError: object has no len()"
      | some n =>
        if 0 < n then pure [toString n ++ " broken link(s)"] else pure []
    else pure []
  -- security-header issues
  let sec := (pyGet result "security_headers").getD (Val.dict [])
  let secScore := (← pyAttrGet sec "score").getD Val.none
  let issues₄ : List String ←
    match secScore with
    | Val.none => pure []
    | v => do
      if (← pyLtNum v 50) then pure ["weak security headers"] else pure []
  -- SEO issues
  let seo := (pyGet result "seo").getD (Val.dict [])
  let seoScore := (← pyAttrGet seo "score").getD Val.none
  let issues₅ : List String ←
    match seoScore with
    | Val.none => pure []
    | v => do
      if (← pyLtNum v 50) then pure ["poor SEO"] else pure []
  let issues := issues₁ ++ issues₂ ++ issues₃ ++ issues₄ ++ issues₅
  let summary := "Overall health is " ++ label ++ " (" ++ toString score ++ "/100)."
  let summary :=
    if issues.isEmpty then summary ++ " No critical issues detected."
    else summary ++ " Key issues: " ++ String.intercalate ", " issues ++ "."
  pure summary

/-- Embedding of `score_and_summarize(result)`: computes score and summary
without mutating the record (the caller writes them back). -/
def score_and_summarize (result : Run) : Except String (ℤ × String) := do
  let score ← calculate_score result
  let summary ← generate_summary score result
  pure (score, summary)

/-!
Orchestrator step helper.  `_step` in `app/routers/test_router.py` mutates
the in-memory run record, then awaits the WebSocket broadcast, then awaits
the durable save of a copy of the record.  We model the two awaited side
effects as an ordered trace of `Effect`s.
-/

/-- Side effects issued by the orchestrator, in program order. -/
inductive Effect where
  /-- `manager.broadcast(tid, {"step": key, "data": value, "done": False})` -/
  | broadcast (tid : String) (key : String) (data : Val) (done : Bool)
  /-- `save_result(tid, snapshot)` -/
  | save (tid : String) (snapshot : Run)

/-- True for broadcast effects. -/
def Effect.isBroadcast : Effect → Bool
  | Effect.broadcast _ _ _ _ => true
  | _ => false

/-- True for save effects. -/
def Effect.isSave : Effect → Bool
  | Effect.save _ _ => true
  | _ => false

/-- Snapshot carried by a save effect. -/
def Effect.savedSnapshot : Effect → Option Run
  | Effect.save _ snap => some snap
  | _ => Option.none

/-- Embedding of `_step(tid, result, key, value)`: returns the updated
record and the ordered trace of awaited effects. -/
def _step (tid : String) (result : Run) (key : String) (value : Val) :
    Run × List Effect :=
  let result' := pySet result key value
  (result',
   [Effect.broadcast tid key value false, Effect.save tid result'])

/-- Formalization of the claim's temporal property on an effect trace: every
broadcast is preceded (or accompanied — impossible for distinct effect kinds,
so effectively preceded) by a save. -/
def persistedBeforeBroadcast (tr : List Effect) : Prop :=
  ∀ pre x post, tr = pre ++ x :: post → x.isBroadcast = true →
    pre.any Effect.isSave = true

/-!
SSRF origin guard.  `_safe_url` in `app/routers/test_router.py` parses the
URL, checks the scheme and host, then tests the host's literal IP — or, for
a hostname, every address returned by `socket.getaddrinfo` — against the
`BLOCKED` private/loopback/link-local networks.  IP parsing and DNS
resolution are environment effects, passed in as functions: `parseIp`
models `ipaddress.ip_address` (`none` = `ValueError`), `getaddrinfo`
models forward DNS (`none` = the call raised, which the outer
`except Exception` turns into a rejection).
-/

/-- An IP address: IPv4 or IPv6, as its numeric value. -/
inductive IpAddr where
  | v4 (a : ℕ)
  | v6 (a : ℕ)
deriving DecidableEq

/-- Membership in `10.0.0.0/8`. -/
def net10_8 : IpAddr → Bool
  | IpAddr.v4 a => a >>> 24 = 10
  | _ => false

/-- Membership in `172.16.0.0/12`. -/
def net172_16_12 : IpAddr → Bool
  | IpAddr.v4 a => a >>> 20 = 0xAC1
  | _ => false

/-- Membership in `192.168.0.0/16`. -/
def net192_168_16 : IpAddr → Bool
  | IpAddr.v4 a => a >>> 16 = 0xC0A8
  | _ => false

/-- Membership in `127.0.0.0/8`. -/
def net127_8 : IpAddr → Bool
  | IpAddr.v4 a => a >>> 24 = 127
  | _ => false

/-- Membership in `169.254.0.0/16`. -/
def net169_254_16 : IpAddr → Bool
  | IpAddr.v4 a => a >>> 16 = 0xA9FE
  | _ => false

/-- Membership in `0.0.0.0/8`. -/
def net0_8 : IpAddr → Bool
  | IpAddr.v4 a => a >>> 24 = 0
  | _ => false

/-- Membership in `::1/128`. -/
def netLoopback6 : IpAddr → Bool
  | IpAddr.v6 a => a = 1
  | _ => false

/-- Membership in `fc00::/7`. -/
def netUla6 : IpAddr → Bool
  | IpAddr.v6 a => a >>> 121 = 0x7E
  | _ => false

/-- The `BLOCKED` network list of `test_router.py`, in source order. -/
def BLOCKED : List (IpAddr → Bool) :=
  [net10_8, net172_16_12, net192_168_16, net127_8,
   net169_254_16, net0_8, netLoopback6, netUla6]

/-- True when the address lies in any blocked network
(`any(ip in n for n in BLOCKED)`). -/
def inBlocked (ip : IpAddr) : Bool := BLOCKED.any (fun n => n ip)

/-- Scheme and hostname of a parsed URL (`urllib.parse.urlparse`): the
fields `_safe_url` consults. -/
structure UrlParts where
  scheme : String
  hostname : Option String

/-- Embedding of `_safe_url(url)`.  Returns `true` when the URL is judged
safe.  `parseIp` is `ipaddress.ip_address`; `getaddrinfo` is forward DNS
resolution, `none` meaning the lookup raised (caught by the outer
`except Exception`, which returns `False`). -/
def _safe_url (parseIp : String → Option IpAddr)
    (getaddrinfo : String → Option (List IpAddr)) (p : UrlParts) : Bool :=
  if ¬ (p.scheme = "http" ∨ p.scheme = "https") then false
  else
    match p.hostname with
    | Option.none => false
    | some h =>
      if h = "" then false   -- `not p.hostname` is also true for ""
      else
        match parseIp h with
        | some ip => ¬ inBlocked ip
        | Option.none =>
          match getaddrinfo h with
          | Option.none => false   -- resolution raised → except → False
          | some addrs =>
            if addrs.any inBlocked then false else true

/-- Rejection condition exactly as the claim words it (spec §4.1/§8): bad
scheme, empty host, blocked literal IP, or — for a hostname — some address
returned by forward DNS resolution is blocked.  A failed resolution returns
no addresses, so under this reading it does not reject. -/
def claim_rejects (parseIp : String → Option IpAddr)
    (getaddrinfo : String → Option (List IpAddr)) (p : UrlParts) : Bool :=
  ¬ (p.scheme = "http" ∨ p.scheme = "https") ||
  (match p.hostname with
   | Option.none => true
   | some h =>
     h = "" ||
     (match parseIp h with
      | some ip => inBlocked ip
      | Option.none => ((getaddrinfo h).getD []).any inBlocked))

/-!
Login-outcome judgment.  When no explicit success indicator is supplied,
`_async_run_login_test` (playwright_runner.py, the `else` branch of
"Verify login outcome") decides success from the post-submit URL, the page
body text, and keyword lists.
-/

/-- Python `s.lower()` (character-wise). -/
def pyLower (s : String) : String := String.mk (s.data.map Char.toLower)

/-- Python `s.strip()`: drop leading and trailing whitespace. -/
def pyStrip (s : String) : String :=
  String.mk (((s.data.dropWhile Char.isWhitespace).reverse.dropWhile
    Char.isWhitespace).reverse)

/-- Python `s[:n]` on strings. -/
def pyTake (s : String) (n : ℕ) : String := String.mk (s.data.take n)

/-- Python `s.startswith(pre)`. -/
def pyStartsWith (s pre : String) : Bool := pre.data.isPrefixOf s.data

/-- Substring test on character lists (Python `needle in hay`). -/
def containsSub (needle : List Char) : List Char → Bool
  | [] => needle.isEmpty
  | c :: rest => needle.isPrefixOf (c :: rest) || containsSub needle rest

/-- Python `needle in hay` on strings. -/
def strContains (hay needle : String) : Bool := containsSub needle.data hay.data

/-- Python `s.split("?")[0]`: everything before the first `?`. -/
def splitQHead (s : String) : String :=
  String.mk (s.data.takeWhile (fun c => c ≠ '?'))

/-- Python `s.rstrip("/")`: drop every trailing slash. -/
def rstripSlashes (s : String) : String :=
  String.mk ((s.data.reverse.dropWhile (fun c => c = '/')).reverse)

/-- The `dashboard_keywords` list of `_async_run_login_test`. -/
def dashboard_keywords : List String :=
  ["dashboard", "home", "profile", "account", "welcome", "logout", "sign out"]

/-- The `error_keywords` list of `_async_run_login_test`. -/
def error_keywords : List String :=
  ["invalid email", "invalid password", "incorrect", "wrong password",
   "unauthorized", "login failed", "doesn't match"]

/-- Whether a known error phrase occurs in the (lowercased) body text. -/
def has_error_phrase (bodyRaw : String) : Bool :=
  error_keywords.any (fun kw => strContains (pyLower bodyRaw) kw)

/-- Whether a known authenticated-area keyword occurs in the URL or the
(lowercased) body text. -/
def has_dashboard_keyword (currentUrl bodyRaw : String) : Bool :=
  dashboard_keywords.any (fun kw =>
    strContains (pyLower currentUrl) kw || strContains (pyLower bodyRaw) kw)

/-- URL comparison actually performed by the code:
`current_url.split("?")[0].rstrip("/") != target_login.split("?")[0].rstrip("/")`
— i.e. the URLs truncated at the first `?` (scheme+host+path, query
dropped) with trailing slashes ignored. -/
def code_url_changed (currentUrl targetLogin : String) : Bool :=
  rstripSlashes (splitQHead currentUrl) ≠ rstripSlashes (splitQHead targetLogin)

/-- Embedding of the credential-heuristic branch of
`_async_run_login_test` (no `success_indicator` supplied): returns
`(login_success, message)` from the post-submit URL, the pre-submit login
URL, and the page body text. -/
def judge_login (currentUrl targetLogin bodyRaw : String) : Bool × String :=
  let has_dashboard := has_dashboard_keyword currentUrl bodyRaw
  let has_error := has_error_phrase bodyRaw
  let redirected := code_url_changed currentUrl targetLogin
  if redirected && !has_error then
    (true, "Login succeeded — redirected to " ++ currentUrl)
  else if has_error then
    (false, "Login failed — error message detected on page")
  else if has_dashboard then
    (true, "Login likely succeeded — dashboard keywords visible")
  else if redirected then
    (true, "Login succeeded — redirected to " ++ currentUrl)
  else
    (false, "Login result unclear — page did not change significantly")

/-- Scanner for the first occurrence of `://`: returns what follows it. -/
def afterSchemeList : List Char → Option (List Char)
  | ':' :: '/' :: '/' :: rest => some rest
  | _ :: t => afterSchemeList t
  | [] => Option.none

/-- URL comparison as the claim words it ("path+query, ignoring trailing
slash"): the part of the URL from the path onward, with trailing slashes of
the path ignored and the query kept. -/
def spec_path_query (u : String) : String :=
  let rest := (afterSchemeList u.data).getD u.data
  let pq := rest.dropWhile (fun c => c ≠ '/')
  rstripSlashes (String.mk (pq.takeWhile (fun c => c ≠ '?'))) ++
    String.mk (pq.dropWhile (fun c => c ≠ '?'))

/-- URL change as the claim words it. -/
def spec_url_changed (currentUrl targetLogin : String) : Bool :=
  spec_path_query currentUrl ≠ spec_path_query targetLogin

/-- Cascade of the amended claim's rules, rule by rule, in precedence
order: (1) URL changed and no error phrase → success; (2) error phrase →
failure; (3) authenticated keyword → success; (4) otherwise failure. -/
def amended_judge_success (currentUrl targetLogin bodyRaw : String) : Bool :=
  if code_url_changed currentUrl targetLogin && !has_error_phrase bodyRaw then true
  else if has_error_phrase bodyRaw then false
  else if has_dashboard_keyword currentUrl bodyRaw then true
  else false

/-- Coercion applied in `_run_all` (test_router.py) to each advanced-check
outcome after `asyncio.gather(..., return_exceptions=True)`: an exception
becomes `{"status": "error", "score": 0, "error": str(val)}`; a normal
result passes through. -/
def coerce_probe : Except String Val → Val
  | .error e => Val.dict [("status", Val.str "error"),
                          ("score", Val.num 0),
                          ("error", Val.str e)]
  | .ok v => v

/-!
BFS crawler, `crawl_website` in `app/services/crawler.py`.  HTTP fetching,
HTML parsing (BeautifulSoup), and the `urllib.parse`-based helpers
(`_normalize_url`, `_same_domain`, `_is_oauth_url`) are environment
effects, passed in through `CrawlEnv`, so the theorems hold for every
behaviour of those collaborators.  A fetched page is a `FetchRes`: the
status code (negative sentinels `-1` timeout / `-2` connection error, as in
`_fetch_html`) and, when the body was non-empty, the parsed document.
-/

/-- Parsed HTML document, as far as the crawler consumes it: title, raw
anchor hrefs, raw image srcs, and the two mobile-responsiveness signals
(`<meta name="viewport">` presence and the responsive-CSS keyword search
over the lowercased markup). -/
structure Doc where
  title : Option String
  anchors : List String
  imgs : List String
  hasViewportMeta : Bool
  hasResponsiveHints : Bool

/-- Result of `_fetch_html`: `(status_code, time_ms, html)`, with
`doc = none` standing for an empty body. -/
structure FetchRes where
  status : ℤ
  loadMs : ℚ
  doc : Option Doc

/-- External collaborators of the crawler. -/
structure CrawlEnv where
  /-- `_fetch_html(url, session)` + BeautifulSoup parsing of the body. -/
  fetch : String → FetchRes
  /-- `_normalize_url(base, href)` (urljoin + fragment strip). -/
  normalize : String → String → String
  /-- `_same_domain(base_url, link)`. -/
  sameDomain : String → String → Bool
  /-- `_is_oauth_url(url)` (OAuth/SSO allow-list). -/
  isOauth : String → Bool
  /-- `_check_link_status(url, session)` (HEAD probe, GET fallback;
  `-1` timeout, `-2` connection error). -/
  headStatus : String → ℤ

/-- One entry of the crawler's page inventory (model of the `CrawledPage`
pydantic model). -/
structure CrawledPage where
  url : String
  status_code : Option ℤ
  load_time_ms : ℚ
  title : Option String
  depth : ℕ

/-- Model of the `BrokenLink` record. -/
structure BrokenLink where
  url : String
  status_code : Option ℤ
  found_on : String
  error : String

/-- Model of the `BrokenLinksCheck` record. -/
structure BrokenLinksCheck where
  status : String
  total_links : ℕ
  broken_count : ℕ
  broken_links : List BrokenLink
  message : String

/-- Model of the `MissingImage` record. -/
structure MissingImage where
  src : String
  found_on : String
  status_code : Option ℤ
  error : String

/-- Model of the `MissingImagesCheck` record. -/
structure MissingImagesCheck where
  status : String
  total_images : ℕ
  missing_count : ℕ
  missing_images : List MissingImage
  message : String

/-- Model of the `MobileResponsivenessCheck` record. -/
structure MobileCheck where
  status : String
  has_viewport_meta : Option Bool
  has_responsive_css : Option Bool
  mobile_score : Option ℤ
  issues : List String
  message : String

/-- Mutable state of the BFS loop. -/
structure CrawlState where
  visited : List String
  pages : List CrawledPage
  all_links : List (String × String)
  all_images : List (String × String)
  firstDoc : Option Doc

/-- Anchor processing for one parsed page: filter out empty /
`mailto:` / `tel:` / `javascript:` / fragment hrefs, normalize, drop
OAuth/SSO URLs, record every surviving link, and enqueue unseen same-domain
ones.  Returns (recorded links, enqueued URLs) in document order. -/
def processAnchors (env : CrawlEnv) (startUrl pageUrl : String)
    (visited : List String) (depth : ℕ) (anchors : List String) :
    List (String × String) × List (String × ℕ) :=
  anchors.foldl
    (fun acc href =>
      let href := pyStrip href
      if href = "" || pyStartsWith href "mailto:" || pyStartsWith href "tel:" ||
          pyStartsWith href "javascript:" || pyStartsWith href "#" then acc
      else
        let full := env.normalize pageUrl href
        if env.isOauth full then acc
        else
          let acc := (acc.1 ++ [(full, pageUrl)], acc.2)
          if env.sameDomain startUrl full && !(visited.contains full) then
            (acc.1, acc.2 ++ [(full, depth + 1)])
          else acc)
    ([], [])

/-- Image processing for one parsed page: filter out empty and `data:`
srcs, normalize, record. -/
def processImgs (env : CrawlEnv) (pageUrl : String) (imgs : List String) :
    List (String × String) :=
  imgs.foldl
    (fun acc src =>
      let src := pyStrip src
      if src = "" || pyStartsWith src "data:" then acc
      else acc ++ [(env.normalize pageUrl src, pageUrl)])
    []

/-- The BFS loop of `crawl_website`: pop until the queue is empty or
`max_pages` pages are inventoried; record a page even on failure; parse
only successful non-empty responses. -/
def crawl_loop (env : CrawlEnv) (startUrl : String) (maxPages : ℕ) :
    List (String × ℕ) → CrawlState → CrawlState
  | [], st => st
  | (url, depth) :: rest, st =>
    if _h : maxPages ≤ st.pages.length then st
    else if url ∈ st.visited then
      crawl_loop env startUrl maxPages rest st
    else
      let fr := env.fetch url
      let title := fr.doc.bind (fun d => d.title)
      let page : CrawledPage := ⟨url, some fr.status, fr.loadMs, title, depth⟩
      let visited' := url :: st.visited
      let pages' := st.pages ++ [page]
      match fr.doc with
      | Option.none =>
        -- `if not html or status_code < 0: continue`
        crawl_loop env startUrl maxPages rest
          { st with visited := visited', pages := pages' }
      | some doc =>
        if fr.status < 0 then
          crawl_loop env startUrl maxPages rest
            { st with visited := visited', pages := pages' }
        else
          let firstDoc' := match st.firstDoc with
            | Option.none => some doc
            | f => f
          let (newLinks, enqueued) :=
            processAnchors env startUrl url visited' depth doc.anchors
          let newImgs := processImgs env url doc.imgs
          crawl_loop env startUrl maxPages (rest ++ enqueued)
            { visited := visited', pages := pages',
              all_links := st.all_links ++ newLinks,
              all_images := st.all_images ++ newImgs,
              firstDoc := firstDoc' }
  termination_by q st => (maxPages - st.pages.length, q.length)
  decreasing_by
    all_goals simp_wf
    all_goals first
      | exact Prod.Lex.right _ (by omega)
      | exact Prod.Lex.left _ _ (by omega)

/-- Last-wins lookup with default `""`, modelling
`{lnk: pg for lnk, pg in all_links}.get(key, "")`. -/
def lookupLast (ps : List (String × String)) (k : String) : String :=
  ps.foldl (fun acc p => if p.1 = k then p.2 else acc) ""

/-- The seed-unreachable condition of `crawl_website`: exactly one crawled
page and its status code is a negative failure sentinel. -/
def seedUnreachable (pages : List CrawledPage) : Bool :=
  match pages with
  | [p] =>
    match p.status_code with
    | some sc => decide (sc < 0)
    | Option.none => false
  | _ => false

/-- Everything `crawl_website` returns. -/
structure CrawlOut where
  pages : List CrawledPage
  brokenCheck : BrokenLinksCheck
  imagesCheck : MissingImagesCheck
  mobileCheck : MobileCheck

/-- Embedding of `crawl_website(start_url, session, max_pages)`. -/
def crawl_website (env : CrawlEnv) (startUrl : String) (maxPages : ℕ) :
    CrawlOut :=
  let st := crawl_loop env startUrl maxPages [(startUrl, 0)] ⟨[], [], [], [], Option.none⟩
  -- broken links, probed once per deduplicated URL
  let unique_links := (st.all_links.map Prod.fst).dedup
  let broken_links : List BrokenLink :=
    unique_links.foldl
      (fun acc lnk =>
        let sc := env.headStatus lnk
        if sc = -1 then
          acc ++ [⟨lnk, Option.none, lookupLast st.all_links lnk, "Timeout"⟩]
        else if sc = -2 then
          acc ++ [⟨lnk, Option.none, lookupLast st.all_links lnk, "Connection error"⟩]
        else if 400 ≤ sc then
          acc ++ [⟨lnk, some sc, lookupLast st.all_links lnk, "HTTP " ++ toString sc⟩]
        else acc)
      []
  let unreachable := seedUnreachable st.pages
  let c_status :=
    if unreachable then "skip"
    else if broken_links.isEmpty then "pass"
    else if broken_links.length ≤ 3 then "warning"
    else "fail"
  let c_msg :=
    if unreachable then "Could not crawl website (Main page unreachable)"
    else if broken_links.isEmpty then
      "All " ++ toString unique_links.length ++ " links OK"
    else
      "Found " ++ toString broken_links.length ++ " broken link(s) out of " ++
        toString unique_links.length ++ " checked"
  let brokenCheck : BrokenLinksCheck :=
    ⟨c_status, unique_links.length, broken_links.length,
     broken_links.take 50, c_msg⟩
  -- missing images, probed once per deduplicated URL
  let unique_images := (st.all_images.map Prod.fst).dedup
  let missing_images : List MissingImage :=
    unique_images.foldl
      (fun acc img =>
        let sc := env.headStatus img
        if sc < 0 || 400 ≤ sc then
          acc ++ [⟨img, lookupLast st.all_images img,
                   if 0 < sc then some sc else Option.none,
                   if sc = -1 then "Timeout"
                   else if sc = -2 then "Connection error"
                   else "HTTP " ++ toString sc⟩]
        else acc)
      []
  let img_status :=
    if unreachable then "skip"
    else if missing_images.isEmpty then "pass"
    else if missing_images.length ≤ 2 then "warning"
    else "fail"
  let img_msg :=
    if unreachable then "Could not crawl website (Main page unreachable)"
    else if missing_images.isEmpty then
      "All " ++ toString unique_images.length ++ " images loaded OK"
    else "Found " ++ toString missing_images.length ++ " missing image(s)"
  let imagesCheck : MissingImagesCheck :=
    ⟨img_status, unique_images.length, missing_images.length,
     missing_images.take 50, img_msg⟩
  -- mobile responsiveness from the first successfully fetched page
  let mobileCheck : MobileCheck :=
    match st.firstDoc with
    | some d =>
      let issues :=
        (if !d.hasViewportMeta then ["Missing <meta name='viewport'> tag"] else []) ++
        (if !d.hasResponsiveHints then
          ["No responsive CSS patterns detected (missing @media queries or flex/grid)"]
         else [])
      let score : ℤ := 100 - (if !d.hasViewportMeta then 50 else 0) -
        (if !d.hasResponsiveHints then 30 else 0)
      let mstatus :=
        if 80 ≤ score then "pass" else if 50 ≤ score then "warning" else "fail"
      let mmsg :=
        if issues.isEmpty then "Site appears mobile-friendly"
        else toString issues.length ++ " mobile issue(s) found"
      ⟨mstatus, some d.hasViewportMeta, some d.hasResponsiveHints, some score,
       issues, mmsg⟩
    | Option.none =>
      ⟨"skip", Option.none, Option.none, Option.none, [],
       "No HTML content to analyze"⟩
  ⟨st.pages, brokenCheck, imagesCheck, mobileCheck⟩

/-!
Post-login UI exploration, button phase (`_test_post_login_ui` in
`playwright_runner.py`, section "2. Buttons").  The browser is abstracted:
a scanned page exposes, per CSS selector, the list of matching button
elements with the attributes the code reads, plus an abstract outcome for a
click on that element.  The fold below mirrors the source loop exactly:
pages capped at 5 (`pages_to_scan[:5]`), per-selector element count capped
at 30 (`min(count, 30)`), visibility/enabled filters, label computation and
length filter, the destructive-keyword skip (before deduplication), the
per-page `(page, lowercased label)` dedup set, and the click with its
pass/fail recording.  Click attempts are logged in a separate event trace
so that "the button is never clicked" is directly expressible.
-/

/-- The `SKIP_KEYWORDS` destructive-label list, in source order. -/
def SKIP_KEYWORDS : List String :=
  ["delete", "remove", "logout", "log out", "sign out", "signout",
   "deactivate", "cancel account", "unsubscribe", "reset", "clear all",
   "terminate", "destroy", "drop", "purge", "ban", "kick"]

/-- The `BUTTON_SELECTORS` list, in source order. -/
def BUTTON_SELECTORS : List String :=
  ["button", "[role='button']", "input[type='button']",
   "input[type='submit']", "a.btn", "a.button",
   "[class*='btn']", "[class*='button']", "[class*='Button']"]

/-- Abstract outcome of clicking a button: the click raised (`fail`), or it
returned, possibly opening a visible modal, leaving the page at `postUrl`. -/
inductive ClickOutcome where
  | fail (err : String)
  | ok (modalVisible : Bool) (postUrl : String)

/-- A button element as the scan reads it. -/
structure Button where
  visible : Bool
  enabled : Bool
  innerText : String
  ariaLabel : Option String
  titleAttr : Option String
  valueAttr : Option String
  click : ClickOutcome

/-- A page visited by the button scan: its URL, whether navigating to it
succeeds (the per-page `try`), and its button elements per selector. -/
structure ScanPage where
  url : String
  reachable : Bool
  buttons : String → List Button

/-- Model of a `UIActionResult` as the button phase produces it. -/
structure UIAction where
  action_type : String
  label : String
  selector : String
  page_url : String
  status : String
  response_time_present : Bool
  result_url : Option String
  screenshot_note : Option String
  error : Option String
deriving DecidableEq

/-- A click attempt (`await btn.click(...)`) issued by the scan. -/
structure ClickEvent where
  page_url : String
  label : String
  selector : String
deriving DecidableEq

/-- State threaded through the button scan. -/
structure ScanState where
  actions : List UIAction
  clicks : List ClickEvent
  seen : List String
  btn_passed : ℕ
  btn_failed : ℕ

/-- Python `a or b` over optional strings: first truthy operand. -/
def orStr (a : Option String) (d : String) : String :=
  match a with
  | some s => if s = "" then d else s
  | Option.none => d

/-- Label computation of the scan: `inner_text().strip()[:60]`, falling back
to `(aria-label or title or value or "Unnamed Button").strip()[:60]`. -/
def computeLabel (b : Button) : String :=
  let label := pyTake (pyStrip b.innerText) 60
  if label = "" then
    pyTake (pyStrip (orStr b.ariaLabel (orStr b.titleAttr
        (orStr b.valueAttr "Unnamed Button")))) 60
  else label

/-- Whether a label matches the destructive-keyword filter
(`any(kw in label_lower for kw in SKIP_KEYWORDS)`). -/
def destructiveLabel (label : String) : Bool :=
  SKIP_KEYWORDS.any (fun kw => strContains (pyLower label) kw)

/-- The skip record appended for a destructive button. -/
def skipAction (currentUrl sel label : String) : UIAction :=
  ⟨"button", label, sel, currentUrl, "skip", false, Option.none,
   some "Skipped — potentially destructive action", Option.none⟩

/-- Processing of one button element of selector `sel` on the page at
`currentUrl` (the body of the `for i in range(min(count, 30))` loop). -/
def processButton (currentUrl sel : String) (st : ScanState) (b : Button) :
    ScanState :=
  if !b.visible then st
  else if !b.enabled then st
  else
    let label := computeLabel b
    if label.length < 2 then st
    else if destructiveLabel label then
      { st with actions := st.actions ++ [skipAction currentUrl sel label] }
    else
      let key := currentUrl ++ "::" ++ pyLower label
      if key ∈ st.seen then st
      else
        let st := { st with seen := key :: st.seen }
        let st := { st with
          clicks := st.clicks ++ [(⟨currentUrl, label, sel⟩ : ClickEvent)] }
        match b.click with
        | ClickOutcome.fail err =>
          { st with
            actions := st.actions ++
              [(⟨"button", label, sel, currentUrl, "fail", true, Option.none,
                Option.none, some err⟩ : UIAction)],
            btn_failed := st.btn_failed + 1 }
        | ClickOutcome.ok modal postUrl =>
          let note :=
            if modal then "Opened modal/dialog — closed with Escape"
            else if postUrl ≠ currentUrl then "Navigated to " ++ postUrl
            else "Button clicked — UI response detected (no navigation)"
          { st with
            actions := st.actions ++
              [(⟨"button", label, sel, currentUrl, "pass", true,
                if postUrl ≠ currentUrl then some postUrl else Option.none,
                some note, Option.none⟩ : UIAction)],
            btn_passed := st.btn_passed + 1 }

/-- Button scan over one page: reset the per-page dedup set, then walk
every selector and its first 30 matches. -/
def scanPageButtons (st : ScanState) (p : ScanPage) : ScanState :=
  if !p.reachable then st
  else
    BUTTON_SELECTORS.foldl
      (fun st sel => ((p.buttons sel).take 30).foldl (processButton p.url sel) st)
      { st with seen := [] }

/-- The whole button phase: at most five pages scanned. -/
def scan_buttons (pages : List ScanPage) : ScanState :=
  (pages.take 5).foldl scanPageButtons ⟨[], [], [], 0, 0⟩


/-!
Theorems.
-/

/-- Scoring configuration of the broken-links check: the
`WEIGHTS["broken_links"]` entry. -/
def brokenCfg : WeightCfg := ⟨"_derived", 8, false⟩

/-- Sanity: `brokenCfg` is the broken-links entry of `WEIGHTS`. -/
theorem brokenCfg_mem_WEIGHTS : ("broken_links", brokenCfg) ∈ WEIGHTS := by
  simp [WEIGHTS, brokenCfg]

/-- C6: for a broken-links record with numeric `total_checked = t > 0` and
broken list `bs`, the derived value is `max(0, 100 − (|bs|/t)·200)`. -/
theorem extract_value_broken_links_formula
    (es : List (String × Val)) (bs : List Val) (t : ℚ)
    (hne : es ≠ [])
    (ht : pyGet es "total_checked" = some (Val.num t)) (htpos : 0 < t)
    (hb : pyGet es "broken" = some (Val.list bs)) :
    extract_value (some (Val.dict es)) brokenCfg
      = .ok (some (max 0 (100 - ((bs.length : ℚ) / t) * 200))) := by
  simp [extract_value, brokenCfg, derivedField, truthy, List.isEmpty_iff,
    hne, hb, derivedDivisor, ht, htpos.ne', pyLen, valAsNum]

/-- Concrete broken-links record: 20 links checked, 3 broken. -/
def es20 : List (String × Val) :=
  [("status", Val.str "warning"),
   ("total_checked", Val.num 20),
   ("broken", Val.list
     [Val.dict [("url", Val.str "https://a.example/x"), ("status", Val.num 404)],
      Val.dict [("url", Val.str "https://a.example/y"), ("status", Val.num 500)],
      Val.dict [("url", Val.str "https://a.example/z"), ("status", Val.num 410)]])]

/-- The broken list of `es20`. -/
def bs3 : List Val :=
  [Val.dict [("url", Val.str "https://a.example/x"), ("status", Val.num 404)],
   Val.dict [("url", Val.str "https://a.example/y"), ("status", Val.num 500)],
   Val.dict [("url", Val.str "https://a.example/z"), ("status", Val.num 410)]]

/-- C6 witness: `total_checked = 20`, `broken_count = 3` yields exactly 70. -/
theorem extract_value_broken_links_formula_witness :
    es20 ≠ [] ∧
    extract_value (some (Val.dict es20)) brokenCfg = .ok (some 70) := by
  refine ⟨by simp [es20], ?_⟩
  have h := extract_value_broken_links_formula es20 bs3 20
    (by simp [es20]) rfl (by norm_num) rfl
  rw [h]
  norm_num [bs3]

/-- C10: the derived broken-links extraction is total.  (i) When
`total_checked` is missing or falsy, the divisor is 1; (ii) the divisor, as
a number, is never zero; (iii) whenever the `broken` field is a list (or
absent) and the divisor is numeric, extraction returns a defined value. -/
theorem extract_value_derived_total :
    (∀ es bs, es ≠ [] →
      (pyGet es "broken").getD (Val.list []) = Val.list bs →
      (pyGet es "total_checked" = Option.none ∨
        ∃ t, pyGet es "total_checked" = some t ∧ truthy t = false) →
      extract_value (some (Val.dict es)) brokenCfg
        = .ok (some (max 0 (100 - ((bs.length : ℚ) / 1) * 200))))
  ∧ (∀ es q, valAsNum (derivedDivisor es) = some q → q ≠ 0)
  ∧ (∀ es bs, es ≠ [] →
      (pyGet es "broken").getD (Val.list []) = Val.list bs →
      (∃ q, valAsNum (derivedDivisor es) = some q) →
      ∃ v : ℚ, extract_value (some (Val.dict es)) brokenCfg = .ok (some v)) := by
  refine ⟨?_, ?_, ?_⟩
  · intro es bs hne hb ht
    have hdiv : derivedDivisor es = Val.num 1 := by
      rcases ht with h | ⟨t, h, htr⟩
      · simp [derivedDivisor, h, truthy]
      · simp [derivedDivisor, h, htr]
    simp [extract_value, brokenCfg, derivedField, truthy, List.isEmpty_iff,
      hne, hb, hdiv, pyLen, valAsNum]
  · intro es q h
    unfold derivedDivisor at h
    generalize hgen : (pyGet es "total_checked").getD (Val.num 1) = t at h
    by_cases htr : truthy t = true
    · rw [if_pos htr] at h
      cases t with
      | num x =>
        simp only [valAsNum, Option.some.injEq] at h
        subst h
        simpa [truthy, decide_eq_true_iff] using htr
      | bool b =>
        cases b with
        | false => simp [truthy] at htr
        | true =>
          simp only [valAsNum, if_true] at h
          simp at h
          subst h
          norm_num
      | none => simp [valAsNum] at h
      | str s => simp [valAsNum] at h
      | list xs => simp [valAsNum] at h
      | dict es' => simp [valAsNum] at h
    · rw [if_neg htr] at h
      simp only [valAsNum, Option.some.injEq] at h
      subst h
      norm_num
  · intro es bs hne hb ⟨q, hq⟩
    refine ⟨max 0 (100 - ((bs.length : ℚ) / q) * 200), ?_⟩
    simp [extract_value, brokenCfg, derivedField, truthy, List.isEmpty_iff,
      hne, hb, pyLen, hq]

/-- C10 witness: a broken-links record with `total_checked` absent and two
broken entries extracts to `max(0, 100 − (2/1)·200) = 0`, with divisor 1. -/
theorem extract_value_derived_total_witness :
    extract_value
      (some (Val.dict [("status", Val.str "error"),
                       ("broken", Val.list [Val.num 1, Val.num 2])]))
      brokenCfg = .ok (some (max 0 (100 - ((2 : ℚ) / 1) * 200))) := by
  have h := extract_value_derived_total.1
    [("status", Val.str "error"), ("broken", Val.list [Val.num 1, Val.num 2])]
    [Val.num 1, Val.num 2] (by simp) rfl (Or.inl rfl)
  simpa using h

/-- A passing check result carrying a full score. -/
def perfectCheck : Val :=
  Val.dict [("status", Val.str "pass"), ("score", Val.num 100)]

/-- The run record of the C1 scenario: every check succeeded with a full
score except the "seo" probe, which raised and was coerced by `_run_all`
into `{"status": "error", "score": 0, "error": "probe crashed"}`. -/
def c1_run : Run :=
  [("test_id", Val.str "t-1"),
   ("url", Val.str "https://ok.example"),
   ("status", Val.str "running"),
   ("speed", Val.dict [("status", Val.str "pass"), ("score", Val.num 100),
                       ("load_time_ms", Val.num 500)]),
   ("ssl", Val.dict [("status", Val.str "pass"), ("valid", Val.bool true),
                     ("expires_in_days", Val.num 90)]),
   ("broken_links", Val.dict [("status", Val.str "pass"),
                              ("total_checked", Val.num 5),
                              ("broken", Val.list [])]),
   ("images", Val.dict [("status", Val.str "pass"), ("missing_count", Val.num 0)]),
   ("mobile", Val.dict [("status", Val.str "pass"), ("score", Val.num 100)]),
   ("js_errors", Val.dict [("status", Val.str "pass"), ("error_count", Val.num 0)]),
   ("seo", coerce_probe (.error "probe crashed")),
   ("accessibility", perfectCheck),
   ("security_headers", perfectCheck),
   ("core_web_vitals", perfectCheck),
   ("cookies_gdpr", perfectCheck),
   ("html_validation", perfectCheck),
   ("content_quality", perfectCheck),
   ("pwa", perfectCheck),
   ("functionality", perfectCheck)]

/-- The same run with the "seo" key absent altogether. -/
def c1_run_no_seo : Run :=
  [("test_id", Val.str "t-1"),
   ("url", Val.str "https://ok.example"),
   ("status", Val.str "running"),
   ("speed", Val.dict [("status", Val.str "pass"), ("score", Val.num 100),
                       ("load_time_ms", Val.num 500)]),
   ("ssl", Val.dict [("status", Val.str "pass"), ("valid", Val.bool true),
                     ("expires_in_days", Val.num 90)]),
   ("broken_links", Val.dict [("status", Val.str "pass"),
                              ("total_checked", Val.num 5),
                              ("broken", Val.list [])]),
   ("images", Val.dict [("status", Val.str "pass"), ("missing_count", Val.num 0)]),
   ("mobile", Val.dict [("status", Val.str "pass"), ("score", Val.num 100)]),
   ("js_errors", Val.dict [("status", Val.str "pass"), ("error_count", Val.num 0)]),
   ("accessibility", perfectCheck),
   ("security_headers", perfectCheck),
   ("core_web_vitals", perfectCheck),
   ("cookies_gdpr", perfectCheck),
   ("html_validation", perfectCheck),
   ("content_quality", perfectCheck),
   ("pwa", perfectCheck),
   ("functionality", perfectCheck)]

/-- Helper: a numeric-score check extracts to its stored score. -/
lemma extract_value_num_score (d : Option Val) (w q : ℚ)
    (es : List (String × Val)) (h : d = some (Val.dict es)) (hne : es ≠ [])
    (hs : pyGet es "score" = some (Val.num q)) :
    extract_value d ⟨"score", w, false⟩ = .ok (some q) := by
  subst h
  simp [extract_value, truthy, List.isEmpty_iff, hne, numField, hs, pyFloat]

/-- C1 (code bug): the coerced "seo" error record carries `score = 0`, so
`calculate_score` keeps SEO's weight 10 in the denominator and counts it as
0/100: the run scores `round(10000/110) = 91` (the `WEIGHTS` table sums to
110, not the commented 100).  Dropping the "seo" key — the weight-exclusion
semantics the claim (and `calculate_score`'s own docstring) describe —
would instead yield 100. -/
theorem calculate_score_counts_errored_seo :
    coerce_probe (.error "probe crashed")
      = Val.dict [("status", Val.str "error"), ("score", Val.num 0),
                  ("error", Val.str "probe crashed")] ∧
    calculate_score c1_run = .ok 91 ∧
    calculate_score c1_run_no_seo = .ok 100 := by
  refine ⟨rfl, ?_, ?_⟩
  · have e1 := extract_value_num_score (pyGet c1_run "speed") 15 100
      [("status", Val.str "pass"), ("score", Val.num 100), ("load_time_ms", Val.num 500)]
      (by simp [c1_run, pyGet]) (by simp) (by simp [pyGet])
    have e2 : extract_value (pyGet c1_run "ssl") ⟨"valid", 10, true⟩
        = .ok (some 100) := by
      have h : pyGet c1_run "ssl" = some (Val.dict
          [("status", Val.str "pass"), ("valid", Val.bool true),
           ("expires_in_days", Val.num 90)]) := by simp [c1_run, pyGet]
      rw [h]; simp [extract_value, truthy, boolField, pyGet]
    have e3 := extract_value_num_score (pyGet c1_run "security_headers") 12 100
      [("status", Val.str "pass"), ("score", Val.num 100)]
      (by simp [c1_run, pyGet, perfectCheck]) (by simp) (by simp [pyGet])
    have e4 := extract_value_num_score (pyGet c1_run "core_web_vitals") 12 100
      [("status", Val.str "pass"), ("score", Val.num 100)]
      (by simp [c1_run, pyGet, perfectCheck]) (by simp) (by simp [pyGet])
    have e5 := extract_value_num_score (pyGet c1_run "seo") 10 0
      [("status", Val.str "error"), ("score", Val.num 0), ("error", Val.str "probe crashed")]
      (by simp [c1_run, pyGet, coerce_probe]) (by simp) (by simp [pyGet])
    have e6 := extract_value_num_score (pyGet c1_run "accessibility") 10 100
      [("status", Val.str "pass"), ("score", Val.num 100)]
      (by simp [c1_run, pyGet, perfectCheck]) (by simp) (by simp [pyGet])
    have e7 := extract_value_num_score (pyGet c1_run "html_validation") 8 100
      [("status", Val.str "pass"), ("score", Val.num 100)]
      (by simp [c1_run, pyGet, perfectCheck]) (by simp) (by simp [pyGet])
    have e8 := extract_value_num_score (pyGet c1_run "content_quality") 8 100
      [("status", Val.str "pass"), ("score", Val.num 100)]
      (by simp [c1_run, pyGet, perfectCheck]) (by simp) (by simp [pyGet])
    have e9 : extract_value (pyGet c1_run "broken_links") ⟨"_derived", 8, false⟩
        = .ok (some 100) := by
      have h : pyGet c1_run "broken_links" = some (Val.dict
          [("status", Val.str "pass"), ("total_checked", Val.num 5),
           ("broken", Val.list [])]) := by simp [c1_run, pyGet]
      rw [h]
      have h2 := extract_value_broken_links_formula
        [("status", Val.str "pass"), ("total_checked", Val.num 5),
         ("broken", Val.list [])] [] 5 (by simp) (by simp [pyGet]) (by norm_num)
        (by simp [pyGet])
      rw [show (brokenCfg : WeightCfg) = ⟨"_derived", 8, false⟩ from rfl] at h2
      rw [h2]; norm_num
    have e10 := extract_value_num_score (pyGet c1_run "cookies_gdpr") 7 100
      [("status", Val.str "pass"), ("score", Val.num 100)]
      (by simp [c1_run, pyGet, perfectCheck]) (by simp) (by simp [pyGet])
    have e11 := extract_value_num_score (pyGet c1_run "pwa") 5 100
      [("status", Val.str "pass"), ("score", Val.num 100)]
      (by simp [c1_run, pyGet, perfectCheck]) (by simp) (by simp [pyGet])
    have e12 := extract_value_num_score (pyGet c1_run "functionality") 5 100
      [("status", Val.str "pass"), ("score", Val.num 100)]
      (by simp [c1_run, pyGet, perfectCheck]) (by simp) (by simp [pyGet])
    simp only [calculate_score, scoreStep, WEIGHTS, List.foldlM, bind,
      Except.bind, pure, Except.pure, e1, e2, e3, e4, e5, e6, e7, e8, e9,
      e10, e11, e12]
    norm_num [pyRound]
  · have e1 := extract_value_num_score (pyGet c1_run_no_seo "speed") 15 100
      [("status", Val.str "pass"), ("score", Val.num 100), ("load_time_ms", Val.num 500)]
      (by simp [c1_run_no_seo, pyGet]) (by simp) (by simp [pyGet])
    have e2 : extract_value (pyGet c1_run_no_seo "ssl") ⟨"valid", 10, true⟩
        = .ok (some 100) := by
      have h : pyGet c1_run_no_seo "ssl" = some (Val.dict
          [("status", Val.str "pass"), ("valid", Val.bool true),
           ("expires_in_days", Val.num 90)]) := by simp [c1_run_no_seo, pyGet]
      rw [h]; simp [extract_value, truthy, boolField, pyGet]
    have e3 := extract_value_num_score (pyGet c1_run_no_seo "security_headers") 12 100
      [("status", Val.str "pass"), ("score", Val.num 100)]
      (by simp [c1_run_no_seo, pyGet, perfectCheck]) (by simp) (by simp [pyGet])
    have e4 := extract_value_num_score (pyGet c1_run_no_seo "core_web_vitals") 12 100
      [("status", Val.str "pass"), ("score", Val.num 100)]
      (by simp [c1_run_no_seo, pyGet, perfectCheck]) (by simp) (by simp [pyGet])
    have e5 : extract_value (pyGet c1_run_no_seo "seo") ⟨"score", 10, false⟩
        = .ok Option.none := by
      have h : pyGet c1_run_no_seo "seo" = Option.none := by
        simp [c1_run_no_seo, pyGet]
      rw [h]; simp [extract_value]
    have e6 := extract_value_num_score (pyGet c1_run_no_seo "accessibility") 10 100
      [("status", Val.str "pass"), ("score", Val.num 100)]
      (by simp [c1_run_no_seo, pyGet, perfectCheck]) (by simp) (by simp [pyGet])
    have e7 := extract_value_num_score (pyGet c1_run_no_seo "html_validation") 8 100
      [("status", Val.str "pass"), ("score", Val.num 100)]
      (by simp [c1_run_no_seo, pyGet, perfectCheck]) (by simp) (by simp [pyGet])
    have e8 := extract_value_num_score (pyGet c1_run_no_seo "content_quality") 8 100
      [("status", Val.str "pass"), ("score", Val.num 100)]
      (by simp [c1_run_no_seo, pyGet, perfectCheck]) (by simp) (by simp [pyGet])
    have e9 : extract_value (pyGet c1_run_no_seo "broken_links") ⟨"_derived", 8, false⟩
        = .ok (some 100) := by
      have h : pyGet c1_run_no_seo "broken_links" = some (Val.dict
          [("status", Val.str "pass"), ("total_checked", Val.num 5),
           ("broken", Val.list [])]) := by simp [c1_run_no_seo, pyGet]
      rw [h]
      have h2 := extract_value_broken_links_formula
        [("status", Val.str "pass"), ("total_checked", Val.num 5),
         ("broken", Val.list [])] [] 5 (by simp) (by simp [pyGet]) (by norm_num)
        (by simp [pyGet])
      rw [show (brokenCfg : WeightCfg) = ⟨"_derived", 8, false⟩ from rfl] at h2
      rw [h2]; norm_num
    have e10 := extract_value_num_score (pyGet c1_run_no_seo "cookies_gdpr") 7 100
      [("status", Val.str "pass"), ("score", Val.num 100)]
      (by simp [c1_run_no_seo, pyGet, perfectCheck]) (by simp) (by simp [pyGet])
    have e11 := extract_value_num_score (pyGet c1_run_no_seo "pwa") 5 100
      [("status", Val.str "pass"), ("score", Val.num 100)]
      (by simp [c1_run_no_seo, pyGet, perfectCheck]) (by simp) (by simp [pyGet])
    have e12 := extract_value_num_score (pyGet c1_run_no_seo "functionality") 5 100
      [("status", Val.str "pass"), ("score", Val.num 100)]
      (by simp [c1_run_no_seo, pyGet, perfectCheck]) (by simp) (by simp [pyGet])
    simp only [calculate_score, scoreStep, WEIGHTS, List.foldlM, bind,
      Except.bind, pure, Except.pure, e1, e2, e3, e4, e5, e6, e7, e8, e9,
      e10, e11, e12]
    norm_num [pyRound]

/-- Well-formedness of a run record for scoring: its broken-links entry, if
a dict, has a sized `broken` field (default `[]`) and a numeric (or
defaulted) `total_checked` — exactly the shapes the backend's own
broken-links check produces. -/
def run_wf (r : Run) : Prop :=
  ∀ es, pyGet r "broken_links" = some (Val.dict es) →
    pyLen ((pyGet es "broken").getD (Val.list [])) ≠ Option.none ∧
    valAsNum (derivedDivisor es) ≠ Option.none

/-- Python's banker's rounding maps [0,100] into [0,100]. -/
lemma pyRound_bounds (q : ℚ) (h0 : 0 ≤ q) (h100 : q ≤ 100) :
    0 ≤ pyRound q ∧ pyRound q ≤ 100 := by
  unfold pyRound
  have hf0 : (0 : ℤ) ≤ ⌊q⌋ := Int.le_floor.mpr (by exact_mod_cast h0)
  have hf100 : ⌊q⌋ ≤ 100 := by
    have h := Int.floor_le_floor h100
    simpa using h
  have hup : ∀ hlt : ¬ (q - (⌊q⌋ : ℚ) < 1 / 2), ⌊q⌋ + 1 ≤ 100 := by
    intro hlt
    have h1 : (⌊q⌋ : ℚ) < q := by
      push_neg at hlt
      linarith
    have h2 : (⌊q⌋ : ℚ) < 100 := lt_of_lt_of_le h1 h100
    have : ⌊q⌋ < 100 := by exact_mod_cast h2
    omega
  split_ifs with h1 h2 h3
  · exact ⟨hf0, hf100⟩
  · exact ⟨by omega, hup (by linarith)⟩
  · exact ⟨hf0, hf100⟩
  · exact ⟨by omega, hup h1⟩

/-- A non-derived weight configuration never raises in `_extract_value`. -/
lemma extract_ok_nonderived (d : Option Val) (cfg : WeightCfg)
    (h : cfg.key ≠ "_derived") : ∃ o, extract_value d cfg = .ok o := by
  rcases d with _ | v
  · exact ⟨Option.none, rfl⟩
  by_cases htr : truthy v = false
  · exact ⟨Option.none, by simp [extract_value, htr]⟩
  rcases v with _ | b | q | s | xs | es
  · exact ⟨Option.none, by simp [extract_value, htr]⟩
  · exact ⟨Option.none, by simp [extract_value, htr]⟩
  · exact ⟨Option.none, by simp [extract_value, htr]⟩
  · exact ⟨Option.none, by simp [extract_value, htr]⟩
  · exact ⟨Option.none, by simp [extract_value, htr]⟩
  · by_cases hb : cfg.bool
    · exact ⟨boolField (pyGet es cfg.key), by simp [extract_value, htr, hb]⟩
    · exact ⟨numField (pyGet es cfg.key), by simp [extract_value, htr, hb, h]⟩

/-- Under `run_wf`, the derived broken-links extraction also succeeds. -/
lemma extract_ok_derived (r : Run) (hwf : run_wf r) :
    ∃ o, extract_value (pyGet r "broken_links") brokenCfg = .ok o := by
  rcases hg : pyGet r "broken_links" with _ | v
  · exact ⟨Option.none, rfl⟩
  by_cases htr : truthy v = false
  · exact ⟨Option.none, by simp [extract_value, htr]⟩
  rcases v with _ | b | q | s | xs | es
  · exact ⟨Option.none, by simp [extract_value, htr]⟩
  · exact ⟨Option.none, by simp [extract_value, htr]⟩
  · exact ⟨Option.none, by simp [extract_value, htr]⟩
  · exact ⟨Option.none, by simp [extract_value, htr]⟩
  · exact ⟨Option.none, by simp [extract_value, htr]⟩
  · have hwfe := hwf es hg
    have hkey : extract_value (some (Val.dict es)) brokenCfg = derivedField es := by
      simp [extract_value, htr, brokenCfg]
    rw [hkey]
    unfold derivedField
    rcases hl : pyLen ((pyGet es "broken").getD (Val.list [])) with _ | n
    · exact absurd hl hwfe.1
    rcases hv : valAsNum (derivedDivisor es) with _ | t
    · exact absurd hv hwfe.2
    exact ⟨_, rfl⟩

/-- One scoring step preserves the accumulator invariant
`0 ≤ tw ∧ 0 ≤ ws ∧ ws ≤ 100·tw`. -/
lemma scoreStep_bounds (r : Run) (acc : ℚ × ℚ) (nc : String × WeightCfg)
    (hok : ∃ o, extract_value (pyGet r nc.1) nc.2 = .ok o)
    (hw : 0 ≤ nc.2.weight)
    (h1 : 0 ≤ acc.1) (h2 : 0 ≤ acc.2) (h3 : acc.2 ≤ 100 * acc.1) :
    ∃ acc' : ℚ × ℚ, scoreStep r acc nc = .ok acc' ∧
      0 ≤ acc'.1 ∧ 0 ≤ acc'.2 ∧ acc'.2 ≤ 100 * acc'.1 := by
  obtain ⟨o, ho⟩ := hok
  match o with
  | Option.none =>
    refine ⟨acc, ?_, h1, h2, h3⟩
    simp [scoreStep, ho, bind, Except.bind, pure, Except.pure]
  | some v =>
    have hc0 : 0 ≤ max 0 (min 100 v) := le_max_left _ _
    have hc100 : max 0 (min 100 v) ≤ 100 :=
      max_le (by norm_num) (min_le_left _ _)
    refine ⟨(acc.1 + nc.2.weight, acc.2 + max 0 (min 100 v) * nc.2.weight),
      ?_, by dsimp only; linarith, by dsimp only; nlinarith,
      by dsimp only; nlinarith⟩
    simp [scoreStep, ho, bind, Except.bind, pure, Except.pure]

/-- The scoring fold succeeds and maintains the invariant. -/
lemma score_fold_bounds (r : Run) (l : List (String × WeightCfg))
    (hok : ∀ nc ∈ l, ∃ o, extract_value (pyGet r nc.1) nc.2 = .ok o)
    (hw : ∀ nc ∈ l, 0 ≤ nc.2.weight) :
    ∀ acc : ℚ × ℚ, 0 ≤ acc.1 → 0 ≤ acc.2 → acc.2 ≤ 100 * acc.1 →
    ∃ tw ws : ℚ, List.foldlM (scoreStep r) acc l = .ok (tw, ws) ∧
      0 ≤ tw ∧ 0 ≤ ws ∧ ws ≤ 100 * tw := by
  induction l with
  | nil =>
    intro acc h1 h2 h3
    exact ⟨acc.1, acc.2, rfl, h1, h2, h3⟩
  | cons hd tl ih =>
    intro acc h1 h2 h3
    obtain ⟨acc', hstep, h1', h2', h3'⟩ :=
      scoreStep_bounds r acc hd (hok hd (by simp)) (hw hd (by simp)) h1 h2 h3
    obtain ⟨tw, ws, hfold, hb⟩ :=
      ih (fun nc h => hok nc (by simp [h])) (fun nc h => hw nc (by simp [h]))
        acc' h1' h2' h3'
    refine ⟨tw, ws, ?_, hb⟩
    rw [List.foldlM_cons, hstep]
    simpa [bind, Except.bind] using hfold

/-- When no check produces a value, the fold leaves the accumulator be. -/
lemma score_fold_none (r : Run) (l : List (String × WeightCfg))
    (h : ∀ nc ∈ l, extract_value (pyGet r nc.1) nc.2 = .ok Option.none) :
    ∀ acc : ℚ × ℚ, List.foldlM (scoreStep r) acc l = .ok acc := by
  induction l with
  | nil => intro acc; rfl
  | cons hd tl ih =>
    intro acc
    rw [List.foldlM_cons]
    have hstep : scoreStep r acc hd = .ok acc := by
      simp [scoreStep, h hd (by simp), bind, Except.bind, pure, Except.pure]
    rw [hstep]
    simp only [bind, Except.bind]
    exact ih (fun nc hm => h nc (by simp [hm])) acc

/-- C5: on any well-formed run record — whatever checks are present, absent
or errored — `calculate_score` returns an integer in [0,100] without
raising; and when no check produces a value the result is exactly 0. -/
theorem calculate_score_total_bounds (r : Run) (hwf : run_wf r) :
    (∃ n : ℤ, calculate_score r = .ok n ∧ 0 ≤ n ∧ n ≤ 100) ∧
    ((∀ nc ∈ WEIGHTS, extract_value (pyGet r nc.1) nc.2 = .ok Option.none) →
      calculate_score r = .ok 0) := by
  constructor
  · have hok : ∀ nc ∈ WEIGHTS, ∃ o, extract_value (pyGet r nc.1) nc.2 = .ok o := by
      intro nc hm
      by_cases hk : nc.2.key = "_derived"
      · have : nc = ("broken_links", brokenCfg) := by
          fin_cases hm <;> simp_all [brokenCfg, WEIGHTS]
        rw [this]
        exact extract_ok_derived r hwf
      · exact extract_ok_nonderived _ _ hk
    have hw : ∀ nc ∈ WEIGHTS, 0 ≤ nc.2.weight := by
      intro nc hm
      fin_cases hm <;> norm_num
    obtain ⟨tw, ws, hfold, htw, hws, hle⟩ :=
      score_fold_bounds r WEIGHTS hok hw (0, 0) le_rfl le_rfl (by norm_num)
    by_cases h0 : tw = 0
    · refine ⟨0, ?_, le_rfl, by norm_num⟩
      unfold calculate_score
      rw [hfold]
      simp [bind, Except.bind, h0, pure, Except.pure]
    · have htwpos : 0 < tw := lt_of_le_of_ne htw (Ne.symm h0)
      have hq0 : 0 ≤ ws / tw := div_nonneg hws htw
      have hq100 : ws / tw ≤ 100 := (div_le_iff₀ htwpos).mpr (by linarith)
      obtain ⟨hr0, hr100⟩ := pyRound_bounds _ hq0 hq100
      refine ⟨pyRound (ws / tw), ?_, hr0, hr100⟩
      unfold calculate_score
      rw [hfold]
      simp [bind, Except.bind, h0, pure, Except.pure]
  · intro hnone
    have hfold := score_fold_none r WEIGHTS hnone ((0 : ℚ), (0 : ℚ))
    unfold calculate_score
    rw [hfold]
    simp [bind, Except.bind, pure, Except.pure]

/-- C5 witness: the empty run record is well-formed, scores `0`, and indeed
no check produces a value there. -/
theorem calculate_score_total_bounds_witness :
    (∃ n : ℤ, calculate_score [] = .ok n ∧ 0 ≤ n ∧ n ≤ 100) ∧
    calculate_score ([] : Run) = .ok 0 := by
  have hwf : run_wf [] := by
    intro es h
    simp [pyGet] at h
  have h := calculate_score_total_bounds [] hwf
  exact ⟨h.1, h.2 (by intro nc hm; simp [pyGet, extract_value])⟩

/-- Updating one key leaves every other key's lookup unchanged. -/
lemma pyGet_pySet_ne (r : List (String × Val)) (k k' : String) (v : Val)
    (h : k' ≠ k) : pyGet (pySet r k' v) k = pyGet r k := by
  induction r with
  | nil => simp [pySet, pyGet, h]
  | cons hd tl ih =>
    rcases hd with ⟨hk, hv⟩
    by_cases he : hk = k'
    · simp [pySet, he, pyGet, h]
    · simp [pySet, he, pyGet, ih]

/-- The scoring fold reads the run only at the `WEIGHTS` keys. -/
lemma score_fold_congr (r₁ r₂ : Run) (l : List (String × WeightCfg))
    (h : ∀ nc ∈ l, pyGet r₁ nc.1 = pyGet r₂ nc.1) :
    ∀ acc : ℚ × ℚ,
      List.foldlM (scoreStep r₁) acc l = List.foldlM (scoreStep r₂) acc l := by
  induction l with
  | nil => intro acc; rfl
  | cons hd tl ih =>
    intro acc
    rw [List.foldlM_cons, List.foldlM_cons]
    have hstep : scoreStep r₁ acc hd = scoreStep r₂ acc hd := by
      unfold scoreStep
      rw [h hd (by simp)]
    rw [hstep]
    cases hs : scoreStep r₂ acc hd with
    | error e => simp [bind, Except.bind]
    | ok acc' =>
      simp only [bind, Except.bind]
      exact ih (fun nc hm => h nc (by simp [hm])) acc'

/-- `calculate_score` reads the run only at the `WEIGHTS` keys. -/
lemma calculate_score_congr (r₁ r₂ : Run)
    (h : ∀ nc ∈ WEIGHTS, pyGet r₁ nc.1 = pyGet r₂ nc.1) :
    calculate_score r₁ = calculate_score r₂ := by
  unfold calculate_score
  rw [score_fold_congr r₁ r₂ WEIGHTS h ((0 : ℚ), (0 : ℚ))]

/-- `generate_summary` reads the run only at its five issue keys. -/
lemma generate_summary_congr (sc : ℤ) (r₁ r₂ : Run)
    (h : ∀ k, k = "ssl" ∨ k = "speed" ∨ k = "broken_links" ∨
      k = "security_headers" ∨ k = "seo" → pyGet r₁ k = pyGet r₂ k) :
    generate_summary sc r₁ = generate_summary sc r₂ := by
  unfold generate_summary
  rw [h "ssl" (by tauto), h "speed" (by tauto), h "broken_links" (by tauto),
    h "security_headers" (by tauto), h "seo" (by tauto)]

/-- C9: finalization is idempotent.  If `score_and_summarize` produced
`(s, m)` on a run, then writing `overall_score = s` and `summary = m` back
into the record (as `_run_all` does) and applying `score_and_summarize`
again returns the same `(s, m)`. -/
theorem score_and_summarize_idempotent (r : Run) (s : ℤ) (m : String)
    (h : score_and_summarize r = .ok (s, m)) :
    score_and_summarize
      (pySet (pySet r "overall_score" (Val.num s)) "summary" (Val.str m))
      = .ok (s, m) := by
  have hg : ∀ k, k ≠ "overall_score" → k ≠ "summary" →
      pyGet (pySet (pySet r "overall_score" (Val.num s)) "summary" (Val.str m)) k
        = pyGet r k := by
    intro k h1 h2
    rw [pyGet_pySet_ne _ _ _ _ (Ne.symm h2), pyGet_pySet_ne _ _ _ _ (Ne.symm h1)]
  have hcalc : calculate_score
      (pySet (pySet r "overall_score" (Val.num s)) "summary" (Val.str m))
      = calculate_score r := by
    refine calculate_score_congr _ _ ?_
    intro nc hm
    fin_cases hm <;> exact hg _ (by decide) (by decide)
  have hsum : ∀ sc : ℤ, generate_summary sc
      (pySet (pySet r "overall_score" (Val.num s)) "summary" (Val.str m))
      = generate_summary sc r := by
    intro sc
    refine generate_summary_congr sc _ _ ?_
    intro k hk
    rcases hk with h' | h' | h' | h' | h' <;> subst h' <;>
      exact hg _ (by decide) (by decide)
  unfold score_and_summarize at h ⊢
  rw [hcalc]
  simp only [hsum]
  exact h

/-- C9 witness: replaying finalization on the empty run (score 0, templated
summary) returns the same pair. -/
theorem score_and_summarize_idempotent_witness :
    score_and_summarize
      (pySet (pySet ([] : Run) "overall_score" (Val.num 0)) "summary"
        (Val.str "Overall health is poor (0/100). No critical issues detected."))
      = .ok (0, "Overall health is poor (0/100). No critical issues detected.") :=
  score_and_summarize_idempotent [] 0
    "Overall health is poor (0/100). No critical issues detected." rfl

/-- Helper: the key just written is read back. -/
lemma pyGet_pySet_self (r : List (String × Val)) (k : String) (v : Val) :
    pyGet (pySet r k v) k = some v := by
  induction r with
  | nil => simp [pySet, pyGet]
  | cons hd tl ih =>
    rcases hd with ⟨hk, hv⟩
    by_cases he : hk = k
    · simp [pySet, he, pyGet]
    · simp [pySet, he, pyGet, ih]

/-- C2 counterexample: already for the very first step of a run, `_step`'s
effect trace broadcasts the step before saving it, so the claimed
persist-before-broadcast ordering fails. -/
theorem step_broadcasts_before_persist_cex :
    ¬ persistedBeforeBroadcast
      (_step "t-1" [] "speed" (Val.dict [("status", Val.str "pass")])).2 := by
  intro h
  have h2 := h []
    (Effect.broadcast "t-1" "speed" (Val.dict [("status", Val.str "pass")]) false)
    [Effect.save "t-1" (pySet [] "speed" (Val.dict [("status", Val.str "pass")]))]
    rfl rfl
  simp at h2

/-- C2 amended: `_step` updates the in-memory record before broadcasting;
the broadcast precedes the durable save; the step does broadcast and save;
and every save carries exactly the updated record — so the persisted copy
reflects the step only after (never before) its broadcast. -/
theorem step_effect_order (tid : String) (r : Run) (key : String) (v : Val) :
    pyGet ((_step tid r key v).1) key = some v ∧
    ((_step tid r key v).2).any Effect.isBroadcast = true ∧
    ((_step tid r key v).2).any Effect.isSave = true ∧
    (∀ pre x post, (_step tid r key v).2 = pre ++ x :: post →
      x.isSave = true → pre.any Effect.isBroadcast = true) ∧
    (∀ pre x post, (_step tid r key v).2 = pre ++ x :: post →
      x.isSave = true → x.savedSnapshot = some ((_step tid r key v).1)) := by
  refine ⟨pyGet_pySet_self r key v, rfl, rfl, ?_, ?_⟩
  · intro pre x post heq hx
    rcases pre with _ | ⟨a, pre⟩
    · simp [_step] at heq
      rw [← heq.1] at hx
      simp [Effect.isSave] at hx
    · rcases pre with _ | ⟨b, pre⟩
      · simp [_step] at heq
        rw [← heq.1]
        simp [Effect.isBroadcast]
      · simp [_step] at heq
  · intro pre x post heq hx
    rcases pre with _ | ⟨a, pre⟩
    · simp [_step] at heq
      rw [← heq.1] at hx
      simp [Effect.isSave] at hx
    · rcases pre with _ | ⟨b, pre⟩
      · simp [_step] at heq
        rw [← heq.2.1]
        simp [Effect.savedSnapshot, _step]
      · simp [_step] at heq

/-- C2 amended witness: the ordering facts instantiated on a concrete step. -/
theorem step_effect_order_witness :
    pyGet ((_step "t" [] "speed" Val.none).1) "speed" = some Val.none ∧
    ((_step "t" [] "speed" Val.none).2).any Effect.isSave = true ∧
    [Effect.broadcast "t" "speed" Val.none false].any Effect.isBroadcast = true := by
  refine ⟨(step_effect_order "t" [] "speed" Val.none).1,
    (step_effect_order "t" [] "speed" Val.none).2.2.1, ?_⟩
  exact (step_effect_order "t" [] "speed" Val.none).2.2.2.1
    [Effect.broadcast "t" "speed" Val.none false]
    (Effect.save "t" (pySet [] "speed" Val.none)) [] rfl rfl

/-- An `ip_address` parser that always raises `ValueError` (every hostname
that is not a literal IP). -/
def parse_ip_never : String → Option IpAddr := fun _ => Option.none

/-- A resolver whose `getaddrinfo` raises (unresolvable hostname). -/
def getaddrinfo_failing : String → Option (List IpAddr) := fun _ => Option.none

/-- The URL of the C3 counterexample: a well-formed http URL with an
unresolvable hostname. -/
def cexUrl : UrlParts := ⟨"http", some "unresolvable.invalid"⟩

/-- C3 counterexample: when DNS resolution fails, `_safe_url` rejects even
though none of the claim's rejection conditions (bad scheme, empty host,
blocked literal or resolved IP) holds — so the claimed "if and only if"
fails. -/
theorem safe_url_dns_failure_cex :
    _safe_url parse_ip_never getaddrinfo_failing cexUrl = false ∧
    claim_rejects parse_ip_never getaddrinfo_failing cexUrl = false := by
  constructor <;> rfl

/-- C3 amended: `_safe_url` rejects exactly when the claim's conditions
hold **or** the host is a hostname whose DNS resolution fails (raises). -/
theorem safe_url_reject_characterization (parseIp : String → Option IpAddr)
    (gai : String → Option (List IpAddr)) (p : UrlParts) :
    _safe_url parseIp gai p = false ↔
      (claim_rejects parseIp gai p = true ∨
        ((p.scheme = "http" ∨ p.scheme = "https") ∧
          ∃ h, p.hostname = some h ∧ h ≠ "" ∧ parseIp h = Option.none ∧
            gai h = Option.none)) := by
  rcases p with ⟨sch, host⟩
  unfold _safe_url claim_rejects
  by_cases hs : sch = "http" ∨ sch = "https"
  · rcases host with _ | h
    · simp [hs]
    · by_cases hh : h = ""
      · simp [hs, hh]
      · cases hp : parseIp h with
        | none =>
          cases hg : gai h with
          | none => simp [hs, hh, hp, hg]
          | some addrs => simp [hs, hh, hp, hg]
        | some ip => simp [hs, hh, hp]
  · simp [hs]

/-- Post-submit URL of the C4 counterexample: same path, new query string. -/
def cex_current : String := "https://site.example/login?attempt=2"

/-- Pre-submit login URL of the C4 counterexample. -/
def cex_target : String := "https://site.example/login"

/-- C4 counterexample: a post-submit URL that differs from the login URL
only in its query string.  On "path+query" (the claim's comparison) the URL
changed and no error phrase is present, so the claim's first rule demands
`success = true`; the code compares the URLs with the query *stripped*
(`split("?")[0]`), sees no change, and returns `success = false`. -/
theorem judge_login_path_query_cex :
    spec_url_changed cex_current cex_target = true ∧
    has_error_phrase "" = false ∧
    (judge_login cex_current cex_target "").1 = false := by
  refine ⟨rfl, rfl, rfl⟩

/-- C4 amended: the code's judgment agrees with the rule cascade of the
amended claim — URL compared after dropping the query (not "path+query"),
trailing slashes ignored; precedence: changed∧no-error → success, error →
failure, authenticated keyword → success, else failure with the ambiguity
message — and the two concrete scenarios hold. -/
theorem judge_login_amended :
    (∀ cu tu body, (judge_login cu tu body).1 = amended_judge_success cu tu body) ∧
    (∀ cu tu body, code_url_changed cu tu = false → has_error_phrase body = false →
      has_dashboard_keyword cu body = false →
      judge_login cu tu body
        = (false, "Login result unclear — page did not change significantly")) ∧
    (judge_login "https://site.example/dashboard" "https://site.example/login" "").1
      = true ∧
    (judge_login "https://site.example/login" "https://site.example/login"
      "Invalid password").1 = false := by
  refine ⟨?_, ?_, rfl, rfl⟩
  · intro cu tu body
    unfold judge_login amended_judge_success
    by_cases hr : code_url_changed cu tu <;>
      by_cases he : has_error_phrase body <;>
        by_cases hd : has_dashboard_keyword cu body <;>
          simp [hr, he, hd]
  · intro cu tu body hr he hd
    unfold judge_login
    simp [hr, he, hd]

/-- C4 amended witness: an unchanged URL with neither error phrases nor
authenticated keywords yields the ambiguous-failure outcome. -/
theorem judge_login_amended_witness :
    judge_login "https://x.example/a" "https://x.example/a" "just a plain page"
      = (false, "Login result unclear — page did not change significantly") :=
  judge_login_amended.2.1 "https://x.example/a" "https://x.example/a"
    "just a plain page" rfl rfl rfl

/-- C8: if the crawl seed cannot be fetched (negative status sentinel), the
only crawled page is the seed, and both the broken-links check and the
missing-images check come back with `status = skip` and the
could-not-crawl message rather than zero findings. -/
theorem crawl_unreachable_skips (env : CrawlEnv) (startUrl : String)
    (maxPages : ℕ) (hmp : 1 ≤ maxPages)
    (hst : (env.fetch startUrl).status < 0) :
    (crawl_website env startUrl maxPages).brokenCheck.status = "skip" ∧
    (crawl_website env startUrl maxPages).brokenCheck.message
      = "Could not crawl website (Main page unreachable)" ∧
    (crawl_website env startUrl maxPages).imagesCheck.status = "skip" ∧
    (crawl_website env startUrl maxPages).imagesCheck.message
      = "Could not crawl website (Main page unreachable)" ∧
    (crawl_website env startUrl maxPages).pages
      = [⟨startUrl, some (env.fetch startUrl).status,
          (env.fetch startUrl).loadMs,
          (env.fetch startUrl).doc.bind (fun d => d.title), 0⟩] := by
  have hnot : ¬ maxPages ≤ (0 : ℕ) := by omega
  have hloop : crawl_loop env startUrl maxPages [(startUrl, 0)]
      ⟨[], [], [], [], Option.none⟩ =
      ⟨[startUrl],
       [⟨startUrl, some (env.fetch startUrl).status,
         (env.fetch startUrl).loadMs,
         (env.fetch startUrl).doc.bind (fun d => d.title), 0⟩],
       [], [], Option.none⟩ := by
    rw [crawl_loop]
    rcases hdoc : (env.fetch startUrl).doc with _ | doc
    · simp [hnot, hdoc, crawl_loop]
    · simp [hnot, hdoc, hst, crawl_loop]
  unfold crawl_website
  rw [hloop]
  simp [seedUnreachable, hst]

/-- The crawl environment of the C8 witness: every fetch times out. -/
def unreachableEnv : CrawlEnv :=
  { fetch := fun _ => ⟨-1, 0, Option.none⟩,
    normalize := fun _ href => href,
    sameDomain := fun _ _ => false,
    isOauth := fun _ => false,
    headStatus := fun _ => 200 }

/-- C8 witness: an unreachable seed gives skip on both checks. -/
theorem crawl_unreachable_skips_witness :
    (crawl_website unreachableEnv "https://down.example" 25).brokenCheck.status
      = "skip" ∧
    (crawl_website unreachableEnv "https://down.example" 25).imagesCheck.status
      = "skip" := by
  have h := crawl_unreachable_skips unreachableEnv "https://down.example" 25
    (by norm_num) (by decide)
  exact ⟨h.1, h.2.2.1⟩

/-- Clicks recorded by one button step never carry a destructive label. -/
lemma processButton_clicks_inv (u sel : String) (st : ScanState) (b : Button)
    (h : ∀ c ∈ st.clicks, destructiveLabel c.label = false) :
    ∀ c ∈ (processButton u sel st b).clicks, destructiveLabel c.label = false := by
  intro c hc
  simp only [processButton] at hc
  by_cases h1 : (!b.visible) = true
  · rw [if_pos h1] at hc; exact h c hc
  rw [if_neg h1] at hc
  by_cases h2 : (!b.enabled) = true
  · rw [if_pos h2] at hc; exact h c hc
  rw [if_neg h2] at hc
  by_cases h3 : (computeLabel b).length < 2
  · rw [if_pos h3] at hc; exact h c hc
  rw [if_neg h3] at hc
  by_cases h4 : destructiveLabel (computeLabel b) = true
  · rw [if_pos h4] at hc
    exact h c hc
  rw [if_neg h4] at hc
  by_cases h5 : (u ++ "::" ++ pyLower (computeLabel b)) ∈ st.seen
  · rw [if_pos h5] at hc; exact h c hc
  rw [if_neg h5] at hc
  rcases hclick : b.click with err | ⟨modal, post⟩ <;> rw [hclick] at hc <;>
    dsimp at hc <;> rcases List.mem_append.mp hc with h6 | h6
  · exact h c h6
  · have he : c = ⟨u, computeLabel b, sel⟩ := by simpa using h6
    subst he
    exact (Bool.not_eq_true _).mp h4
  · exact h c h6
  · have he : c = ⟨u, computeLabel b, sel⟩ := by simpa using h6
    subst he
    exact (Bool.not_eq_true _).mp h4

/-- A button step only appends to the action list. -/
lemma processButton_actions_mono (u sel : String) (st : ScanState) (b : Button)
    (a : UIAction) (ha : a ∈ st.actions) :
    a ∈ (processButton u sel st b).actions := by
  simp only [processButton]
  by_cases h1 : (!b.visible) = true
  · rw [if_pos h1]; exact ha
  rw [if_neg h1]
  by_cases h2 : (!b.enabled) = true
  · rw [if_pos h2]; exact ha
  rw [if_neg h2]
  by_cases h3 : (computeLabel b).length < 2
  · rw [if_pos h3]; exact ha
  rw [if_neg h3]
  by_cases h4 : destructiveLabel (computeLabel b) = true
  · rw [if_pos h4]
    exact List.mem_append_left _ ha
  rw [if_neg h4]
  by_cases h5 : (u ++ "::" ++ pyLower (computeLabel b)) ∈ st.seen
  · rw [if_pos h5]; exact ha
  rw [if_neg h5]
  rcases hclick : b.click with err | ⟨modal, post⟩ <;>
    exact List.mem_append_left _ ha

/-- A destructive visible enabled button's step records its skip action. -/
lemma processButton_skip (u sel : String) (st : ScanState) (b : Button)
    (hv : b.visible = true) (he : b.enabled = true)
    (hl : ¬ (computeLabel b).length < 2)
    (hd : destructiveLabel (computeLabel b) = true) :
    skipAction u sel (computeLabel b) ∈ (processButton u sel st b).actions := by
  simp only [processButton, hv, he]
  rw [if_neg (by simp), if_neg (by simp), if_neg hl, if_pos hd]
  exact List.mem_append_right _ (by simp)

/-- Click invariant through a per-selector button fold. -/
lemma buttons_fold_clicks_inv (u sel : String) (l : List Button) :
    ∀ st : ScanState, (∀ c ∈ st.clicks, destructiveLabel c.label = false) →
      ∀ c ∈ (l.foldl (processButton u sel) st).clicks,
        destructiveLabel c.label = false := by
  induction l with
  | nil => intro st h; exact h
  | cons hd tl ih =>
    intro st h
    exact ih _ (processButton_clicks_inv u sel st hd h)

/-- Action-list monotonicity through a per-selector button fold. -/
lemma buttons_fold_actions_mono (u sel : String) (l : List Button) :
    ∀ st : ScanState, ∀ a ∈ st.actions,
      a ∈ (l.foldl (processButton u sel) st).actions := by
  induction l with
  | nil => intro st a ha; exact ha
  | cons hd tl ih =>
    intro st a ha
    exact ih _ _ (processButton_actions_mono u sel st hd a ha)

/-- The skip action of a destructive button in the list is recorded. -/
lemma buttons_fold_skip (u sel : String) (l : List Button) :
    ∀ st : ScanState, ∀ b ∈ l, b.visible = true → b.enabled = true →
      ¬ (computeLabel b).length < 2 → destructiveLabel (computeLabel b) = true →
      skipAction u sel (computeLabel b) ∈ (l.foldl (processButton u sel) st).actions := by
  induction l with
  | nil => intro st b hb; cases hb
  | cons hd tl ih =>
    intro st b hb hv he hl hd'
    rcases List.mem_cons.mp hb with rfl | hb'
    · exact buttons_fold_actions_mono u sel tl _ _
        (processButton_skip u sel st b hv he hl hd')
    · exact ih _ b hb' hv he hl hd'

/-- Click invariant through the selector fold of one page. -/
lemma selectors_fold_clicks_inv (p : ScanPage) (sels : List String) :
    ∀ st : ScanState, (∀ c ∈ st.clicks, destructiveLabel c.label = false) →
      ∀ c ∈ (sels.foldl
        (fun st sel => ((p.buttons sel).take 30).foldl (processButton p.url sel) st)
        st).clicks, destructiveLabel c.label = false := by
  induction sels with
  | nil => intro st h; exact h
  | cons hd tl ih =>
    intro st h
    exact ih _ (buttons_fold_clicks_inv p.url hd _ st h)

/-- Action-list monotonicity through the selector fold of one page. -/
lemma selectors_fold_actions_mono (p : ScanPage) (sels : List String) :
    ∀ st : ScanState, ∀ a ∈ st.actions,
      a ∈ (sels.foldl
        (fun st sel => ((p.buttons sel).take 30).foldl (processButton p.url sel) st)
        st).actions := by
  induction sels with
  | nil => intro st a ha; exact ha
  | cons hd tl ih =>
    intro st a ha
    exact ih _ _ (buttons_fold_actions_mono p.url hd _ st a ha)

/-- The skip action survives the whole selector fold. -/
lemma selectors_fold_skip (p : ScanPage) (sels : List String) :
    ∀ st : ScanState, ∀ sel ∈ sels, ∀ b ∈ (p.buttons sel).take 30,
      b.visible = true → b.enabled = true →
      ¬ (computeLabel b).length < 2 → destructiveLabel (computeLabel b) = true →
      skipAction p.url sel (computeLabel b) ∈ (sels.foldl
        (fun st sel => ((p.buttons sel).take 30).foldl (processButton p.url sel) st)
        st).actions := by
  induction sels with
  | nil => intro st sel hsel; cases hsel
  | cons hd tl ih =>
    intro st sel hsel b hb hv he hl hd'
    rcases List.mem_cons.mp hsel with rfl | hsel'
    · exact selectors_fold_actions_mono p tl _ _
        (buttons_fold_skip p.url sel _ st b hb hv he hl hd')
    · exact ih _ sel hsel' b hb hv he hl hd'

/-- Click invariant through one page scan. -/
lemma scanPage_clicks_inv (st : ScanState) (p : ScanPage)
    (h : ∀ c ∈ st.clicks, destructiveLabel c.label = false) :
    ∀ c ∈ (scanPageButtons st p).clicks, destructiveLabel c.label = false := by
  unfold scanPageButtons
  by_cases hr : (!p.reachable) = true
  · rw [if_pos hr]; exact h
  · rw [if_neg hr]
    exact selectors_fold_clicks_inv p BUTTON_SELECTORS _ h

/-- Action-list monotonicity through one page scan. -/
lemma scanPage_actions_mono (st : ScanState) (p : ScanPage)
    (a : UIAction) (ha : a ∈ st.actions) :
    a ∈ (scanPageButtons st p).actions := by
  unfold scanPageButtons
  by_cases hr : (!p.reachable) = true
  · rw [if_pos hr]; exact ha
  · rw [if_neg hr]
    exact selectors_fold_actions_mono p BUTTON_SELECTORS _ a ha

/-- A reachable page's destructive button produces a recorded skip. -/
lemma scanPage_skip (st : ScanState) (p : ScanPage) (hre : p.reachable = true)
    (sel : String) (hsel : sel ∈ BUTTON_SELECTORS)
    (b : Button) (hb : b ∈ (p.buttons sel).take 30)
    (hv : b.visible = true) (he : b.enabled = true)
    (hl : ¬ (computeLabel b).length < 2)
    (hd : destructiveLabel (computeLabel b) = true) :
    skipAction p.url sel (computeLabel b) ∈ (scanPageButtons st p).actions := by
  unfold scanPageButtons
  rw [if_neg (by simp [hre])]
  exact selectors_fold_skip p BUTTON_SELECTORS _ sel hsel b hb hv he hl hd

/-- Click invariant through the page fold. -/
lemma pages_fold_clicks_inv (l : List ScanPage) :
    ∀ st : ScanState, (∀ c ∈ st.clicks, destructiveLabel c.label = false) →
      ∀ c ∈ (l.foldl scanPageButtons st).clicks, destructiveLabel c.label = false := by
  induction l with
  | nil => intro st h; exact h
  | cons hd tl ih =>
    intro st h
    exact ih _ (scanPage_clicks_inv st hd h)

/-- Action-list monotonicity through the page fold. -/
lemma pages_fold_actions_mono (l : List ScanPage) :
    ∀ st : ScanState, ∀ a ∈ st.actions, a ∈ (l.foldl scanPageButtons st).actions := by
  induction l with
  | nil => intro st a ha; exact ha
  | cons hd tl ih =>
    intro st a ha
    exact ih _ _ (scanPage_actions_mono st hd a ha)

/-- The skip action of a destructive button on any scanned page survives
the page fold. -/
lemma pages_fold_skip (l : List ScanPage) :
    ∀ st : ScanState, ∀ p ∈ l, p.reachable = true →
      ∀ sel ∈ BUTTON_SELECTORS, ∀ b ∈ (p.buttons sel).take 30,
      b.visible = true → b.enabled = true →
      ¬ (computeLabel b).length < 2 → destructiveLabel (computeLabel b) = true →
      skipAction p.url sel (computeLabel b) ∈ (l.foldl scanPageButtons st).actions := by
  induction l with
  | nil => intro st p hp; cases hp
  | cons hd tl ih =>
    intro st p hp hre sel hsel b hb hv he hl hd'
    rcases List.mem_cons.mp hp with rfl | hp'
    · exact pages_fold_actions_mono tl _ _
        (scanPage_skip st p hre sel hsel b hb hv he hl hd')
    · exact ih _ p hp' hre sel hsel b hb hv he hl hd'

/-- C7: during the post-login button scan, every visible enabled button on
a scanned page whose label matches a destructive keyword is recorded with a
`status = skip` action, and no click the scan ever issues carries a
destructive label — the button is never clicked. -/
theorem destructive_buttons_skipped (pages : List ScanPage) :
    (∀ p ∈ pages.take 5, p.reachable = true →
      ∀ sel ∈ BUTTON_SELECTORS, ∀ b ∈ (p.buttons sel).take 30,
        b.visible = true → b.enabled = true → 2 ≤ (computeLabel b).length →
        destructiveLabel (computeLabel b) = true →
        skipAction p.url sel (computeLabel b) ∈ (scan_buttons pages).actions) ∧
    (∀ c ∈ (scan_buttons pages).clicks, destructiveLabel c.label = false) := by
  constructor
  · intro p hp hre sel hsel b hb hv he hl hd
    exact pages_fold_skip (pages.take 5) _ p hp hre sel hsel b hb hv he
      (by omega) hd
  · exact pages_fold_clicks_inv (pages.take 5) _ (by simp)

/-- The destructive button of the C7 witness page. -/
def delButton : Button :=
  ⟨true, true, "Delete Account", Option.none, Option.none, Option.none,
   ClickOutcome.ok false "https://app.example/home"⟩

/-- A harmless button on the same page (it does get clicked). -/
def saveButton : Button :=
  ⟨true, true, "Save changes", Option.none, Option.none, Option.none,
   ClickOutcome.ok false "https://app.example/home"⟩

/-- The single post-login page of the C7 witness. -/
def cexPage : ScanPage :=
  ⟨"https://app.example/home", true,
   fun sel => if sel = "button" then [delButton, saveButton] else []⟩

/-- C7 witness: on the concrete page, "Delete Account" is recorded as a
skip and no recorded click has a destructive label. -/
theorem destructive_buttons_skipped_witness :
    skipAction "https://app.example/home" "button" "Delete Account"
      ∈ (scan_buttons [cexPage]).actions ∧
    (∀ c ∈ (scan_buttons [cexPage]).clicks, destructiveLabel c.label = false) := by
  have h := destructive_buttons_skipped [cexPage]
  refine ⟨?_, h.2⟩
  have hcl : computeLabel delButton = "Delete Account" := by decide
  have hmem := h.1 cexPage (by simp) rfl "button" (by decide) delButton
    (by rw [show (cexPage.buttons "button").take 30 = [delButton, saveButton] from rfl]
        simp)
    rfl rfl (by rw [hcl]; decide) (by rw [hcl]; decide)
  rw [hcl] at hmem
  exact hmem
